import Mathlib

/-!
Verification of the reference-graph engine of `json-schema-ref-parser`.

The development shallowly embeds the two source modules present in the
repository — the HTTP resolver (`lib/resolvers/http.js`) and the YAML/JSON
parser (`lib/parsers/yaml.js`) — and, where a claim is decided by repository
code that is not part of the source tree (the dereferencer, the catalog and
the URL utilities, of which only tests and callers survive), models the
missing component from the specification, as flagged in each doc comment.
-/

namespace RefParser

/-! ## HTTP resolver (`lib/resolvers/http.js`) -/

/-- An HTTP response as observed by `download`: the status code, the optional
`Location` header, and the accumulated body bytes (`res.body`, initialised to
an empty buffer by `get`). -/
structure HttpResponse where
  statusCode : Nat
  location : Option String
  body : List Nat

/-- The slice of `options.resolve.http` that `download` consults: the maximum
number of HTTP redirects to follow (`redirects`, default 5 in the source). -/
structure HttpOptions where
  redirects : Nat

/-- Modelled from the spec: `ResolverError` (declared in `lib/util/errors.js`,
which is not in the source tree) carries a message and, when supplied at the
construction site, the offending source URL ("errors are wrapped with the
offending URL and cause chain"). `download` constructs it either with a
source URL (`new ResolverError(ono(err, ...), u.href)`) or without one
(`new ResolverError(ono(...))` in the too-many-redirects branch). -/
structure ResolverError where
  message : String
  source : Option String

/-- The outcome of `download`: either the raw body bytes, or a rejection
with a `ResolverError`. -/
inductive DownloadResult where
  | ok (body : List Nat)
  | err (e : ResolverError)

/-- `Array.prototype.join(' \n  ')` as used on the redirect chain in the
too-many-redirects message. -/
def joinChain : List String → String
  | [] => ""
  | [x] => x
  | x :: y :: t => x ++ " \n  " ++ joinChain (y :: t)

/-- Modelled from the spec: `ono(err, message)` (external library) joins the
new message with the wrapped error's message; only the presence of the URL in
the text matters to the spec ("errors are wrapped with the offending URL"). -/
def onoDownloadMessage (href : String) (inner : String) : String :=
  "Error downloading " ++ href ++ " \n" ++ inner

/-- The message of the too-many-redirects rejection, verbatim from
`http.js`: ``Error downloading ${redirects[0]}. \nToo many redirects: \n  ${redirects.join(' \n  ')}``. -/
def tooManyRedirectsMessage (chain : List String) : String :=
  "Error downloading " ++ chain.headD "" ++ ". \nToo many redirects: \n  " ++ joinChain chain

/-- The `download` function of `lib/resolvers/http.js`.  `net` gives the
outcome of `get` for each requested URL: a response, or (`.error`) the
message of a network or timeout failure rejecting `get` itself.
`urlResolve` is `url.resolve` from `lib/util/url.js` (not in the source
tree, abstracted as a parameter).  `redirects` is the chain of URLs already
requested; the function first pushes the current URL onto the chain, then:
* a rejection of `get` lands in the `.catch`, which wraps it in a
  `ResolverError` carrying the URL;
* status `>= 400` rejects with a `ResolverError` carrying the URL (thrown in
  the `.then`, wrapped by the same `.catch`);
* status `>= 300`: if the chain is longer than `opts.redirects` it rejects
  with the too-many-redirects `ResolverError` (no source URL is passed);
  otherwise, with no `Location` header it rejects with a `ResolverError`
  carrying the URL, and with one it recurses at `url.resolve(u, location)` —
  the inner rejection passing through `.then(resolve, reject)` unwrapped;
* otherwise it resolves with the body bytes. -/
def download (net : String → Except String HttpResponse)
    (urlResolve : String → String → String)
    (opts : HttpOptions) (u : String) (redirects : List String) : DownloadResult :=
  let chain := redirects ++ [u]
  match net u with
  | .error emsg => .err ⟨onoDownloadMessage u emsg, some u⟩
  | .ok res =>
    if 400 ≤ res.statusCode then
      .err ⟨onoDownloadMessage u ("HTTP ERROR " ++ toString res.statusCode), some u⟩
    else if 300 ≤ res.statusCode then
      if h : opts.redirects < chain.length then
        .err ⟨tooManyRedirectsMessage chain, none⟩
      else
        match res.location with
        | none =>
            .err ⟨onoDownloadMessage u
              ("HTTP " ++ toString res.statusCode ++ " redirect with no location header"), some u⟩
        | some loc => download net urlResolve opts (urlResolve u loc) chain
    else
      .ok res.body
termination_by opts.redirects + 1 - redirects.length
decreasing_by simp only [chain, List.length_append, List.length_cons, List.length_nil] at h ⊢; omega

/-- The resolver's `read`: parses the file URL (modelled as already parsed)
and starts `download` with an empty redirect chain. -/
def httpRead (net : String → Except String HttpResponse)
    (urlResolve : String → String → String)
    (opts : HttpOptions) (fileUrl : String) : DownloadResult :=
  download net urlResolve opts fileUrl []

/-! ## YAML/JSON parser (`lib/parsers/yaml.js`) -/

/-- A plain JSON value: null, boolean, number, string, sequence, or ordered
map — the codomain of the JSON-compatible YAML schema (`JSON_SCHEMA`). -/
inductive Json where
  | null
  | bool (b : Bool)
  | num (n : Int)
  | str (s : String)
  | arr (elems : List Json)
  | obj (fields : List (String × Json))

/-- The `data` field of a file descriptor, as the parser receives it from the
resolver: a byte buffer, a string, or an already-parsed JavaScript value. -/
inductive FileData where
  | bytes (bs : List Nat)
  | str (s : String)
  | value (v : Json)

/-- The file descriptor handed to resolvers and parsers:
`{ url, extension, data }`. -/
structure FileDesc where
  url : String
  extension : String
  data : FileData

/-- Modelled from the spec: `ParserError` (declared in `lib/util/errors.js`,
which is not in the source tree) carries the underlying parse error message
and the URL of the file being parsed ("errors are wrapped with the offending
URL"); `yaml.js` constructs it as `new ParserError(e.message, file.url)`. -/
structure ParserError where
  message : String
  source : String

/-- The string branch of `parse`: `yaml.load(data, { schema: JSON_SCHEMA })`
inside `try`, failures rethrown as `ParserError(e.message, file.url)`.
`yamlLoad` abstracts the external `js-yaml` library; its codomain being
`Json` captures the JSON-compatible schema. -/
def parseStr (yamlLoad : String → Except String Json) (fileUrl : String)
    (s : String) : Except ParserError Json :=
  match yamlLoad s with
  | .ok v => .ok v
  | .error m => .error ⟨m, fileUrl⟩

/-- The `parse` function of `lib/parsers/yaml.js`: a `Buffer` is decoded to a
string (`data.toString()`, UTF-8 — `decodeUtf8` abstracts Node's decoder), a
string is loaded as YAML with the JSON-compatible schema, and any other value
is returned unchanged. -/
def yamlParse (yamlLoad : String → Except String Json) (decodeUtf8 : List Nat → String)
    (file : FileDesc) : Except ParserError Json :=
  match file.data with
  | .bytes bs => parseStr yamlLoad file.url (decodeUtf8 bs)
  | .str s => parseStr yamlLoad file.url s
  | .value v => .ok v

/-- The `canParse` declaration of `lib/parsers/yaml.js`: the extension list
`['.yaml', '.yml', '.json']`. -/
def yamlCanParse : List String := [".yaml", ".yml", ".json"]

/-- Modelled from the spec: the parser registry (`lib/parse.js`, not in the
source tree) matches a parser whose `canParse` is an extension list against
the file's lowercased extension. -/
def canParseMatches (file : FileDesc) : Bool :=
  file.extension ∈ yamlCanParse

/-- Whether a file descriptor holds zero bytes of data. -/
def isZeroByte (file : FileDesc) : Bool :=
  match file.data with
  | .bytes bs => bs.isEmpty
  | .str s => s.isEmpty
  | .value _ => false

/-- Modelled from the spec: the parser registry's empty-file policy
(`lib/parse.js`, not in the source tree): "On zero-byte input, parsers with
`allowEmpty == false` fail with `ParserError(\x22empty\x22)`"; with
`allowEmpty == true` the parser's own result is returned. -/
def parseWithPolicy (allowEmpty : Bool) (yamlLoad : String → Except String Json)
    (decodeUtf8 : List Nat → String) (file : FileDesc) : Except ParserError Json :=
  if isZeroByte file ∧ ¬ allowEmpty then
    .error ⟨"empty", file.url⟩
  else
    yamlParse yamlLoad decodeUtf8 file

/-! ## Dereferencer (modelled from the spec)

The dereferencer, catalog and URL utilities of the repository are not in the
source tree (only their tests are), so this section models them from the
specification: §4.4 (catalog flags), §4.5 (JSON Pointer), §4.6/§4.7
(traversal, stack of currently-being-expanded frames, circular records). -/

/-- A ref node is a map whose keys contain `$ref` with a string value;
returns that value. -/
def isRefNode : Json → Option String
  | .obj fields =>
    match fields.lookup "$ref" with
    | some (.str s) => some s
    | _ => none
  | _ => none

/-- RFC 6901 token unescaping on characters: `~1` decodes to `/`, `~0`
to `~`. -/
def unescapeChars : List Char → List Char
  | [] => []
  | '~' :: '1' :: rest => '/' :: unescapeChars rest
  | '~' :: '0' :: rest => '~' :: unescapeChars rest
  | c :: rest => c :: unescapeChars rest

/-- RFC 6901 token escaping on characters: `~` encodes to `~0`, `/`
to `~1`. -/
def escapeChars : List Char → List Char
  | [] => []
  | '~' :: rest => '~' :: '0' :: escapeChars rest
  | '/' :: rest => '~' :: '1' :: escapeChars rest
  | c :: rest => c :: escapeChars rest

/-- RFC 6901 token escaping, used when extending a pointer by a map key. -/
def escapeToken (t : String) : String :=
  String.mk (escapeChars t.data)

/-- Split a character list at every occurrence of the separator. -/
def splitOnChar (c : Char) : List Char → List (List Char)
  | [] => [[]]
  | x :: xs =>
    match splitOnChar c xs with
    | [] => [[x]]
    | t :: ts => if x = c then [] :: t :: ts else (x :: t) :: ts

/-- The token list of a `#`-prefixed JSON Pointer: the empty pointer `#`
targets the root; otherwise the `/`-delimited, unescaped tokens. -/
def pointerTokens (ptr : String) : List String :=
  match ptr.data with
  | ['#'] => []
  | '#' :: '/' :: rest => (splitOnChar '/' rest).map (fun t => String.mk (unescapeChars t))
  | _ => []

/-- Modelled from the spec: JSON Pointer `get` (§4.5) — walk the tokens into
the value; a missing path yields `none` (`MissingPointerError`). -/
def pointerGet (v : Json) : List String → Option Json
  | [] => some v
  | t :: rest =>
    match v with
    | .obj fields =>
      match fields.lookup t with
      | some child => pointerGet child rest
      | none => none
    | .arr elems =>
      match t.toNat? with
      | some i =>
        match elems[i]? with
        | some child => pointerGet child rest
        | none => none
      | none => none
    | _ => none

/-- Break a character list at the first `#`, keeping the `#` with the
tail. -/
def breakAtHash : List Char → List Char × List Char
  | [] => ([], [])
  | '#' :: rest => ([], '#' :: rest)
  | c :: rest =>
    let (a, b) := breakAtHash rest
    (c :: a, b)

/-- Split a location string at its `#`: the document part and the `#…`
fragment (`#` if none), after `url.stripHash` / `url.getHash`. -/
def splitHash (s : String) : String × String :=
  let (a, b) := breakAtHash s.data
  (String.mk a, if b.isEmpty then "#" else String.mk b)

/-- The directory prefix of a URL: everything up to and including the last
`/`, or `""` when there is none. -/
def dirName (u : String) : String :=
  String.mk ((u.data.reverse.dropWhile (fun c => c ≠ '/')).reverse)

/-- Modelled from the spec: RFC 3986 reference resolution (§4.1,
`url.resolve`), restricted to the forms the scenarios use — an empty document
part keeps the current document, a `./`-relative reference is joined against
the base URL's directory, anything else is taken as-is.  Returns the target
document URL and the `#…` pointer fragment. -/
def resolveRefTarget (baseUrl : String) (r : String) : String × String :=
  let (docPart, frag) := splitHash r
  let doc :=
    match docPart.data with
    | [] => baseUrl
    | '.' :: '/' :: rest => dirName baseUrl ++ String.mk rest
    | _ => docPart
  (doc, frag)

/-- The catalog of resolved documents: absolute URL (no fragment) to parsed
value. -/
def Catalog := List (String × Json)

/-- The circularity bookkeeping flags of the catalog (§4.4): `circular` and
`circularRefs`, written only by the dereferencer. -/
structure DerefState where
  circular : Bool
  circularRefs : List String

/-- Thread the dereference state left-to-right through the fields of a map,
applying `f` to each key and child value in document order. -/
def threadFields (f : String → Json → DerefState → Json × DerefState) :
    List (String × Json) → DerefState → List (String × Json) × DerefState
  | [], st => ([], st)
  | (k, cv) :: rest, st =>
    let (cv', st1) := f k cv st
    let (rest', st2) := threadFields f rest st1
    ((k, cv') :: rest', st2)

/-- Thread the dereference state left-to-right through the elements of a
sequence, applying `f` to each index and element in document order. -/
def threadElems (f : Nat → Json → DerefState → Json × DerefState) :
    Nat → List Json → DerefState → List Json × DerefState
  | _, [], st => ([], st)
  | i, cv :: rest, st =>
    let (cv', st1) := f i cv st
    let (rest', st2) := threadElems f (i + 1) rest st1
    (cv' :: rest', st2)

/-- Modelled from the spec: the dereferencer (§4.7).  Walks the value
depth-first carrying the pointer `path` of the current node from the root of
the output and the `stack` of currently-being-expanded `(docURL, pointer)`
frames.  A ref node's target is resolved against the current document URL;
if the frame is already on the stack the reference is circular: the ref's own
pointer is recorded in `circularRefs`, `circular` is set, and the `$ref` node
is left in place (sharing is not representable in a tree model).  Otherwise
the frame is pushed and the target value is dereferenced in its stead.
`fuel` decreases on every recursive call and merely bounds the recursion
depth. -/
def derefGo (catalog : Catalog) (fuel : Nat) (docUrl : String)
    (stack : List (String × String)) (path : String) (v : Json)
    (st : DerefState) : Json × DerefState :=
  match fuel with
  | 0 => (v, st)
  | fuel' + 1 =>
    match isRefNode v with
    | some r =>
      let (tUrl, tPtr) := resolveRefTarget docUrl r
      if (tUrl, tPtr) ∈ stack then
        (v, { circular := true, circularRefs := st.circularRefs ++ [path] })
      else
        match (List.lookup tUrl catalog).bind (fun dv => pointerGet dv (pointerTokens tPtr)) with
        | none => (v, st)
        | some tv => derefGo catalog fuel' tUrl ((tUrl, tPtr) :: stack) path tv st
    | none =>
      match v with
      | .obj fields =>
        let (fields', st') := threadFields
          (fun k cv st0 => derefGo catalog fuel' docUrl stack (path ++ "/" ++ escapeToken k) cv st0)
          fields st
        (.obj fields', st')
      | .arr elems =>
        let (elems', st') := threadElems
          (fun i cv st0 => derefGo catalog fuel' docUrl stack (path ++ "/" ++ toString i) cv st0)
          0 elems st
        (.arr elems', st')
      | leaf => (leaf, st)

/-- Modelled from the spec: the `dereference` operation — look the root up in
the catalog and dereference it with an empty stack, the root pointer `#`, and
clear circularity flags. -/
def dereference (catalog : Catalog) (rootUrl : String) (fuel : Nat) :
    Option (Json × DerefState) :=
  (List.lookup rootUrl catalog).map
    (fun rootVal => derefGo catalog fuel rootUrl [] "#" rootVal ⟨false, []⟩)

/-- Modelled from the spec: the `parse` operation returns the root document's
value with all `$ref` nodes left intact and never touches the circularity
flags, which stay `circular = false`, `circularRefs = []` ("written only by
the Dereferencer", §4.4). -/
def parseOp (catalog : Catalog) (rootUrl : String) : Option Json × DerefState :=
  (List.lookup rootUrl catalog, ⟨false, []⟩)

/-! ## Node identity under dereference (modelled from the spec)

§4.7: "Shared sub-trees (two different refs to the same target) MUST yield
reference-equal nodes in the output"; the design notes (§9) prescribe the
embedding: "model nodes as entries in an arena keyed by ids; a ref becomes an
id; identity equality in tests becomes id equality".  Here every node of the
source document is identified by its pointer location, and dereference
replaces a ref node by the target's sub-tree carrying the target's own ids,
so two refs with the same target yield output nodes with the same identity.
The model covers references internal to a single document (the concrete test
`schema.properties.name === schema.definitions.name` is of this form); a
target's `(url, pointer)` pair degenerates to its pointer. -/

/-- A dereferenced tree in which every node carries its identity: the pointer
location, in the source document, of the node it is (a shared target keeps
its own location wherever it is substituted). -/
inductive DTree where
  | leaf (id : String) (v : Json)
  | arrN (id : String) (elems : List DTree)
  | objN (id : String) (fields : List (String × DTree))

/-- The identity of a dereferenced node. -/
def DTree.ident : DTree → String
  | .leaf i _ => i
  | .arrN i _ => i
  | .objN i _ => i

/-- Apply a child dereferencer to the fields of a map, failing when any
child fails. -/
def derefIdFieldsWith (f : String → Json → Option DTree) :
    List (String × Json) → Option (List (String × DTree))
  | [] => some []
  | (k, cv) :: rest =>
    match f k cv with
    | none => none
    | some cv' => (derefIdFieldsWith f rest).map (fun rest' => (k, cv') :: rest')

/-- Apply a child dereferencer to the elements of a sequence, failing when
any child fails. -/
def derefIdElemsWith (f : Nat → Json → Option DTree) :
    Nat → List Json → Option (List DTree)
  | _, [] => some []
  | i, cv :: rest =>
    match f i cv with
    | none => none
    | some cv' => (derefIdElemsWith f (i + 1) rest).map (fun rest' => cv' :: rest')

/-- Modelled from the spec: dereference with node identities.  `doc` is the
(single) source document, `path` the pointer identifying the node `v` in it.
A ref node is replaced by the dereferenced target sub-tree, whose identity is
the target pointer itself — independent of where the ref sits; any other node
keeps its own location as identity and recurses into its children.  `fuel`
bounds the depth; `none` means it ran out. -/
def derefId (doc : Json) (fuel : Nat) (path : String) (v : Json) : Option DTree :=
  match fuel with
  | 0 => none
  | fuel' + 1 =>
    match isRefNode v with
    | some r =>
      match pointerGet doc (pointerTokens r) with
      | some tv => derefId doc fuel' r tv
      | none => none
    | none =>
      match v with
      | .obj fields =>
        (derefIdFieldsWith (fun k cv => derefId doc fuel' (path ++ "/" ++ escapeToken k) cv)
          fields).map (fun fs => .objN path fs)
      | .arr elems =>
        (derefIdElemsWith (fun i cv => derefId doc fuel' (path ++ "/" ++ toString i) cv)
          0 elems).map (fun es => .arrN path es)
      | leaf => some (.leaf path leaf)

/-- Navigate a dereferenced tree by map keys. -/
def dGet (t : DTree) : List String → Option DTree
  | [] => some t
  | k :: rest =>
    match t with
    | .objN _ fields =>
      match fields.lookup k with
      | some child => dGet child rest
      | none => none
    | _ => none

/-! ## Concrete scenarios from the test suite and the spec -/

/-- S4: the first URL of the redirect chain. -/
def urlA : String := "http://example.com/a"

/-- S4: the second URL of the redirect chain. -/
def urlB : String := "http://example.com/b"

/-- S4: the third URL of the redirect chain. -/
def urlC : String := "http://example.com/c"

/-- S4: the final URL of the redirect chain, never reached. -/
def urlD : String := "http://example.com/d"

/-- The network of scenario S4: A, B and C each redirect to the next URL of
the chain; any other URL responds 200; no request fails at the network
level. -/
def netS4 : String -> Except String HttpResponse := fun s =>
  if s = urlA then .ok { statusCode := 301, location := some urlB, body := [] }
  else if s = urlB then .ok { statusCode := 302, location := some urlC, body := [] }
  else if s = urlC then .ok { statusCode := 301, location := some urlD, body := [] }
  else .ok { statusCode := 200, location := none, body := [123] }

/-- URL resolution for scenario S4: every `Location` header is absolute. -/
def rsS4 : String -> String -> String := fun _ loc => loc

/-- S1: the root document `a.yaml`, `{ foo: { $ref: "./b.yaml" } }`. -/
def aVal : Json := .obj [("foo", .obj [("$ref", .str "./b.yaml")])]

/-- S1: the document `b.yaml`, `{ foo: { $ref: "./a.yaml#/foo" } }`. -/
def bVal : Json := .obj [("foo", .obj [("$ref", .str "./a.yaml#/foo")])]

/-- S1: the catalog holding both documents of the circular pair. -/
def catS1 : Catalog := [("a.yaml", aVal), ("b.yaml", bVal)]

/-- S3: a schema whose `properties.name` is `{ $ref: "#/definitions/name" }`. -/
def docS3 : Json := .obj
  [("definitions", .obj [("name", .obj [("type", .str "object")])]),
   ("properties", .obj [("name", .obj [("$ref", .str "#/definitions/name")])])]

/-! ## Branch lemmas for `download` -/

theorem download_get_error (net : String → Except String HttpResponse)
    (urlResolve : String → String → String)
    (opts : HttpOptions) (u : String) (redirects : List String) (emsg : String)
    (hres : net u = .error emsg) :
    download net urlResolve opts u redirects =
      .err ⟨onoDownloadMessage u emsg, some u⟩ := by
  rw [download]
  simp [hres]

theorem download_http_error (net : String → Except String HttpResponse)
    (urlResolve : String → String → String)
    (opts : HttpOptions) (u : String) (redirects : List String) (res : HttpResponse)
    (hres : net u = .ok res) (h : 400 ≤ res.statusCode) :
    download net urlResolve opts u redirects =
      .err ⟨onoDownloadMessage u ("HTTP ERROR " ++ toString res.statusCode), some u⟩ := by
  rw [download]
  simp [hres, h]

theorem download_overflow (net : String → Except String HttpResponse)
    (urlResolve : String → String → String)
    (opts : HttpOptions) (u : String) (redirects : List String) (res : HttpResponse)
    (hres : net u = .ok res)
    (h3 : 300 ≤ res.statusCode) (h4 : res.statusCode < 400)
    (hover : opts.redirects < (redirects ++ [u]).length) :
    download net urlResolve opts u redirects =
      .err ⟨tooManyRedirectsMessage (redirects ++ [u]), none⟩ := by
  have h400 : ¬ 400 ≤ res.statusCode := Nat.not_le_of_lt h4
  have hover' : opts.redirects < redirects.length + 1 := by simpa using hover
  rw [download]
  simp [hres, h3, h400, hover']

theorem download_no_location (net : String → Except String HttpResponse)
    (urlResolve : String → String → String)
    (opts : HttpOptions) (u : String) (redirects : List String) (res : HttpResponse)
    (hres : net u = .ok res)
    (h3 : 300 ≤ res.statusCode) (h4 : res.statusCode < 400)
    (hin : ¬ opts.redirects < (redirects ++ [u]).length)
    (hloc : res.location = none) :
    download net urlResolve opts u redirects =
      .err ⟨onoDownloadMessage u
        ("HTTP " ++ toString res.statusCode ++ " redirect with no location header"), some u⟩ := by
  have h400 : ¬ 400 ≤ res.statusCode := Nat.not_le_of_lt h4
  have hin' : ¬ opts.redirects < redirects.length + 1 := by simpa using hin
  rw [download]
  simp [hres, h3, h400, hin', hloc]

theorem download_follows (net : String → Except String HttpResponse)
    (urlResolve : String → String → String)
    (opts : HttpOptions) (u : String) (redirects : List String) (loc : String)
    (res : HttpResponse) (hres : net u = .ok res)
    (h3 : 300 ≤ res.statusCode) (h4 : res.statusCode < 400)
    (hin : ¬ opts.redirects < (redirects ++ [u]).length)
    (hloc : res.location = some loc) :
    download net urlResolve opts u redirects =
      download net urlResolve opts (urlResolve u loc) (redirects ++ [u]) := by
  have h400 : ¬ 400 ≤ res.statusCode := Nat.not_le_of_lt h4
  have hin' : ¬ opts.redirects < redirects.length + 1 := by simpa using hin
  rw [download]
  simp [hres, h3, h400, hin', hloc]

theorem download_success (net : String → Except String HttpResponse)
    (urlResolve : String → String → String)
    (opts : HttpOptions) (u : String) (redirects : List String) (res : HttpResponse)
    (hres : net u = .ok res) (h : res.statusCode < 300) :
    download net urlResolve opts u redirects = .ok res.body := by
  have h400 : ¬ 400 ≤ res.statusCode :=
    Nat.not_le_of_lt (lt_of_lt_of_le h (by norm_num))
  have h300 : ¬ 300 ≤ res.statusCode := Nat.not_le_of_lt h
  rw [download]
  simp [hres, h300, h400]

/-- Every member of a joined redirect chain occurs verbatim in the joined
string. -/
theorem mem_joinChain {u : String} : ∀ {l : List String}, u ∈ l →
    ∃ a b, joinChain l = a ++ u ++ b := by
  intro l
  induction l with
  | nil => intro h; cases h
  | cons x t ih =>
    intro h
    cases t with
    | nil =>
      rcases List.mem_singleton.mp h with rfl
      exact ⟨"", "", by simp [joinChain]⟩
    | cons y t' =>
      rcases List.mem_cons.mp h with rfl | hmem
      · exact ⟨"", " \n  " ++ joinChain (y :: t'), by simp [joinChain, String.append_assoc]⟩
      · rcases ih hmem with ⟨a, b, hab⟩
        exact ⟨x ++ " \n  " ++ a, b, by simp [joinChain, hab, String.append_assoc]⟩

/-- Every member of the redirect chain occurs verbatim in the
too-many-redirects message. -/
theorem mem_tooManyRedirectsMessage {u : String} {chain : List String} (h : u ∈ chain) :
    ∃ a b, tooManyRedirectsMessage chain = a ++ u ++ b := by
  rcases mem_joinChain h with ⟨a, b, hab⟩
  exact ⟨"Error downloading " ++ chain.headD "" ++ ". \nToo many redirects: \n  " ++ a, b, by
    simp [tooManyRedirectsMessage, hab, String.append_assoc]⟩

/-- Running scenario S4: with `redirects = 2`, reading chain head A follows
the redirects to B and C and then rejects with the too-many-redirects
`ResolverError`, built without a source URL. -/
theorem s4_run : httpRead netS4 rsS4 ⟨2⟩ urlA =
    .err ⟨tooManyRedirectsMessage [urlA, urlB, urlC], none⟩ := by
  have h1 : download netS4 rsS4 ⟨2⟩ urlA [] = download netS4 rsS4 ⟨2⟩ urlB [urlA] :=
    download_follows netS4 rsS4 ⟨2⟩ urlA [] urlB ⟨301, some urlB, []⟩
      rfl (by decide) (by decide) (by decide) rfl
  have h2 : download netS4 rsS4 ⟨2⟩ urlB [urlA] = download netS4 rsS4 ⟨2⟩ urlC [urlA, urlB] :=
    download_follows netS4 rsS4 ⟨2⟩ urlB [urlA] urlC ⟨302, some urlC, []⟩
      rfl (by decide) (by decide) (by decide) rfl
  have h3 : download netS4 rsS4 ⟨2⟩ urlC [urlA, urlB] =
      .err ⟨tooManyRedirectsMessage [urlA, urlB, urlC], none⟩ :=
    download_overflow netS4 rsS4 ⟨2⟩ urlC [urlA, urlB] ⟨301, some urlD, []⟩
      rfl (by decide) (by decide) (by decide)
  rw [httpRead]
  exact h1.trans (h2.trans h3)

/-! ## Claims -/

/-- C1: whenever a redirect response arrives and the redirect chain exceeds
the configured `redirects` limit, `download` rejects with a `ResolverError`
whose message contains every URL of the chain followed; in particular, with
`redirects = 2` and the chain A→B→C→D of scenario S4, `read` rejects with a
`ResolverError` whose message contains the URLs A, B and C that were
requested. -/
theorem claim1_redirect_overflow :
    (∀ (net : String → Except String HttpResponse)
        (urlResolve : String → String → String)
        (opts : HttpOptions) (u : String) (redirects : List String)
        (res : HttpResponse),
      net u = .ok res →
      300 ≤ res.statusCode → res.statusCode < 400 →
      opts.redirects < (redirects ++ [u]).length →
      ∃ e, download net urlResolve opts u redirects = .err e ∧
        ∀ x ∈ redirects ++ [u], ∃ a b, e.message = a ++ x ++ b)
    ∧ (∃ e, httpRead netS4 rsS4 ⟨2⟩ urlA = .err e ∧
        (∃ a b, e.message = a ++ urlA ++ b) ∧
        (∃ a b, e.message = a ++ urlB ++ b) ∧
        (∃ a b, e.message = a ++ urlC ++ b)) := by
  constructor
  · intro net urlResolve opts u redirects res hres h3 h4 hover
    exact ⟨⟨tooManyRedirectsMessage (redirects ++ [u]), none⟩,
      download_overflow net urlResolve opts u redirects res hres h3 h4 hover,
      fun x hx => mem_tooManyRedirectsMessage hx⟩
  · refine ⟨⟨tooManyRedirectsMessage [urlA, urlB, urlC], none⟩, s4_run, ?_, ?_, ?_⟩
    · exact mem_tooManyRedirectsMessage (by simp)
    · exact mem_tooManyRedirectsMessage (by simp)
    · exact mem_tooManyRedirectsMessage (by simp)

/-- C1 witness: the overflow branch instantiated at the third hop of
scenario S4 (status 301, chain A,B,C against limit 2). -/
theorem claim1_witness :
    netS4 urlC = .ok ⟨301, some urlD, []⟩ ∧
      300 ≤ (HttpResponse.mk 301 (some urlD) []).statusCode ∧
      (HttpResponse.mk 301 (some urlD) []).statusCode < 400 ∧
      (HttpOptions.mk 2).redirects < ([urlA, urlB] ++ [urlC]).length ∧
      (∃ e, download netS4 rsS4 ⟨2⟩ urlC [urlA, urlB] = .err e ∧
        ∀ x ∈ [urlA, urlB] ++ [urlC], ∃ a b, e.message = a ++ x ++ b) :=
  ⟨rfl, by decide, by decide, by decide,
    claim1_redirect_overflow.1 netS4 rsS4 ⟨2⟩ urlC [urlA, urlB] ⟨301, some urlD, []⟩
      rfl (by decide) (by decide) (by decide)⟩

/-- C2: for every response seen by the HTTP resolver, status `>= 400`
rejects with a `ResolverError`; status 300–399 with no `Location` header
rejects with a `ResolverError`; status below 300 resolves with the response
body bytes. -/
theorem claim2_status_dispatch :
    (∀ (net : String → Except String HttpResponse)
        (urlResolve : String → String → String)
        (opts : HttpOptions) (u : String) (redirects : List String)
        (res : HttpResponse),
      net u = .ok res → 400 ≤ res.statusCode →
      ∃ e, download net urlResolve opts u redirects = .err e)
    ∧ (∀ (net : String → Except String HttpResponse)
        (urlResolve : String → String → String)
        (opts : HttpOptions) (u : String) (redirects : List String)
        (res : HttpResponse),
      net u = .ok res → 300 ≤ res.statusCode → res.statusCode < 400 →
      res.location = none →
      ∃ e, download net urlResolve opts u redirects = .err e)
    ∧ (∀ (net : String → Except String HttpResponse)
        (urlResolve : String → String → String)
        (opts : HttpOptions) (u : String) (redirects : List String)
        (res : HttpResponse),
      net u = .ok res → res.statusCode < 300 →
      download net urlResolve opts u redirects = .ok res.body) := by
  refine ⟨?_, ?_, ?_⟩
  · intro net urlResolve opts u redirects res hres h
    exact ⟨_, download_http_error net urlResolve opts u redirects res hres h⟩
  · intro net urlResolve opts u redirects res hres h3 h4 hloc
    by_cases hover : opts.redirects < (redirects ++ [u]).length
    · exact ⟨_, download_overflow net urlResolve opts u redirects res hres h3 h4 hover⟩
    · exact ⟨_, download_no_location net urlResolve opts u redirects res hres h3 h4 hover hloc⟩
  · intro net urlResolve opts u redirects res hres h
    exact download_success net urlResolve opts u redirects res hres h

/-- C2 witness: the three status branches instantiated at constant networks
answering 404, 301-without-Location, and 200. -/
theorem claim2_witness :
    (∃ e, download (fun _ => .ok ⟨404, none, []⟩) (fun _ loc => loc) ⟨5⟩ "http://x/" [] = .err e)
    ∧ (∃ e, download (fun _ => .ok ⟨301, none, []⟩) (fun _ loc => loc) ⟨5⟩ "http://x/" [] = .err e)
    ∧ download (fun _ => .ok ⟨200, none, [7]⟩) (fun _ loc => loc) ⟨5⟩ "http://x/" [] = .ok [7] :=
  ⟨claim2_status_dispatch.1 _ _ ⟨5⟩ "http://x/" [] ⟨404, none, []⟩ rfl (by decide),
    claim2_status_dispatch.2.1 _ _ ⟨5⟩ "http://x/" [] ⟨301, none, []⟩ rfl
      (by decide) (by decide) rfl,
    claim2_status_dispatch.2.2 _ _ ⟨5⟩ "http://x/" [] ⟨200, none, [7]⟩ rfl (by decide)⟩

/-- C3 counterexample: in scenario S4 the read fails through the
too-many-redirects branch, and the resulting `ResolverError` is constructed
without any source URL — refuting the claim that every failure branch
constructs the error with the failing request's URL as its source. -/
theorem claim3_counterexample :
    ∃ e, httpRead netS4 rsS4 ⟨2⟩ urlA = .err e ∧ e.source = none :=
  ⟨⟨tooManyRedirectsMessage [urlA, urlB, urlC], none⟩, s4_run, rfl⟩

/-- C3 (amended): every failure branch of `download` except too-many-redirects
constructs the `ResolverError` with the URL of the failing request as its
source — the network/timeout failure of the GET itself (the `.catch` wrapping
`get`'s rejection), the HTTP error status (`>= 400`), and the in-limit 3xx
without `Location`; the too-many-redirects rejection alone is constructed
without a source URL, the chain of followed URLs appearing only in its
message. -/
theorem claim3_source_urls :
    (∀ (net : String → Except String HttpResponse)
        (urlResolve : String → String → String)
        (opts : HttpOptions) (u : String) (redirects : List String)
        (emsg : String),
      net u = .error emsg →
      ∃ e, download net urlResolve opts u redirects = .err e ∧ e.source = some u)
    ∧ (∀ (net : String → Except String HttpResponse)
        (urlResolve : String → String → String)
        (opts : HttpOptions) (u : String) (redirects : List String)
        (res : HttpResponse),
      net u = .ok res → 400 ≤ res.statusCode →
      ∃ e, download net urlResolve opts u redirects = .err e ∧ e.source = some u)
    ∧ (∀ (net : String → Except String HttpResponse)
        (urlResolve : String → String → String)
        (opts : HttpOptions) (u : String) (redirects : List String)
        (res : HttpResponse),
      net u = .ok res → 300 ≤ res.statusCode → res.statusCode < 400 →
      ¬ opts.redirects < (redirects ++ [u]).length → res.location = none →
      ∃ e, download net urlResolve opts u redirects = .err e ∧ e.source = some u)
    ∧ (∀ (net : String → Except String HttpResponse)
        (urlResolve : String → String → String)
        (opts : HttpOptions) (u : String) (redirects : List String)
        (res : HttpResponse),
      net u = .ok res → 300 ≤ res.statusCode → res.statusCode < 400 →
      opts.redirects < (redirects ++ [u]).length →
      ∃ e, download net urlResolve opts u redirects = .err e ∧ e.source = none ∧
        ∀ x ∈ redirects ++ [u], ∃ a b, e.message = a ++ x ++ b) := by
  refine ⟨?_, ?_, ?_, ?_⟩
  · intro net urlResolve opts u redirects emsg hres
    exact ⟨_, download_get_error net urlResolve opts u redirects emsg hres, rfl⟩
  · intro net urlResolve opts u redirects res hres h
    exact ⟨_, download_http_error net urlResolve opts u redirects res hres h, rfl⟩
  · intro net urlResolve opts u redirects res hres h3 h4 hin hloc
    exact ⟨_, download_no_location net urlResolve opts u redirects res hres h3 h4 hin hloc, rfl⟩
  · intro net urlResolve opts u redirects res hres h3 h4 hover
    exact ⟨_, download_overflow net urlResolve opts u redirects res hres h3 h4 hover, rfl,
      fun x hx => mem_tooManyRedirectsMessage hx⟩

/-- C3 witness: the network-failure branch instantiated at a network whose
GET rejects with a socket error, and the 404 branch at a constant network —
both errors carrying the failing URL as source. -/
theorem claim3_witness :
    (∃ e, download (fun _ => .error "socket hang up") (fun _ loc => loc) ⟨5⟩ "http://y/" []
        = .err e ∧ e.source = some "http://y/")
    ∧ (∃ e, download (fun _ => .ok ⟨404, none, []⟩) (fun _ loc => loc) ⟨5⟩ "http://y/" []
        = .err e ∧ e.source = some "http://y/") :=
  ⟨claim3_source_urls.1 _ _ ⟨5⟩ "http://y/" [] "socket hang up" rfl,
    claim3_source_urls.2.1 _ _ ⟨5⟩ "http://y/" [] ⟨404, none, []⟩ rfl (by decide)⟩

/-- C9: a 3xx response carrying a `Location` header, while the chain is
within the `redirects` limit, makes `download` re-issue itself at the
`Location` value resolved against the current URL, with the current URL
appended to the chain. -/
theorem claim9_follows_redirect
    (net : String → Except String HttpResponse) (urlResolve : String → String → String)
    (opts : HttpOptions) (u : String) (redirects : List String) (loc : String)
    (res : HttpResponse) (hres : net u = .ok res)
    (h3 : 300 ≤ res.statusCode) (h4 : res.statusCode < 400)
    (hin : ¬ opts.redirects < (redirects ++ [u]).length)
    (hloc : res.location = some loc) :
    download net urlResolve opts u redirects =
      download net urlResolve opts (urlResolve u loc) (redirects ++ [u]) :=
  download_follows net urlResolve opts u redirects loc res hres h3 h4 hin hloc

/-- C9 witness: the first hop of scenario S4 (301 from A with Location B,
chain within the limit). -/
theorem claim9_witness :
    download netS4 rsS4 ⟨2⟩ urlA [] = download netS4 rsS4 ⟨2⟩ (rsS4 urlA urlB) ([] ++ [urlA]) :=
  claim9_follows_redirect netS4 rsS4 ⟨2⟩ urlA [] urlB ⟨301, some urlB, []⟩
    rfl (by decide) (by decide) (by decide) rfl

/-- C4: a zero-byte `.yaml` file parses to `null` under `allowEmpty = true`
(the empty string loads as YAML `null`) and fails with `ParserError`
`"empty"` under `allowEmpty = false`.  The registry's empty-file policy is
modelled from the spec; the behaviour of `js-yaml` and of `Buffer.toString`
on empty input enters as the two hypotheses. -/
theorem claim4_empty_policy
    (yamlLoad : String → Except String Json) (decodeUtf8 : List Nat → String)
    (url : String)
    (hdec : decodeUtf8 [] = "") (hload : yamlLoad "" = .ok .null) :
    parseWithPolicy true yamlLoad decodeUtf8 ⟨url, ".yaml", .bytes []⟩ = .ok .null
    ∧ parseWithPolicy false yamlLoad decodeUtf8 ⟨url, ".yaml", .bytes []⟩ =
        .error ⟨"empty", url⟩ := by
  constructor
  · simp [parseWithPolicy, isZeroByte, yamlParse, parseStr, hdec, hload]
  · simp [parseWithPolicy, isZeroByte]

/-- C4 witness: the policy evaluated with a loader mapping the empty string
to `null` and the trivial decoder. -/
theorem claim4_witness :
    ((fun _ : List Nat => "") [] = "" ∧
        (fun _ : String => (.ok .null : Except String Json)) "" = .ok .null)
    ∧ parseWithPolicy true (fun _ => .ok .null) (fun _ => "") ⟨"file:///e.yaml", ".yaml", .bytes []⟩ =
        .ok .null
    ∧ parseWithPolicy false (fun _ => .ok .null) (fun _ => "") ⟨"file:///e.yaml", ".yaml", .bytes []⟩ =
        .error ⟨"empty", "file:///e.yaml"⟩ :=
  ⟨⟨rfl, rfl⟩,
    (claim4_empty_policy (fun _ => .ok .null) (fun _ => "") "file:///e.yaml" rfl rfl).1,
    (claim4_empty_policy (fun _ => .ok .null) (fun _ => "") "file:///e.yaml" rfl rfl).2⟩

/-- C5: the built-in YAML/JSON parser declares exactly the extensions
`.yaml`, `.yml`, `.json`; byte input is decoded to text and then loaded with
the JSON-compatible YAML schema (`yamlLoad`, whose codomain `Json` is the
type of plain JSON values — no custom tags); and every value the parser
produces from textual input is an output of that loader. -/
theorem claim5_yaml_parser_decl :
    yamlCanParse = [".yaml", ".yml", ".json"]
    ∧ (∀ (yamlLoad : String → Except String Json) (decodeUtf8 : List Nat → String)
        (url ext : String) (bs : List Nat),
      yamlParse yamlLoad decodeUtf8 ⟨url, ext, .bytes bs⟩ =
        parseStr yamlLoad url (decodeUtf8 bs))
    ∧ (∀ (yamlLoad : String → Except String Json) (decodeUtf8 : List Nat → String)
        (url ext s : String) (v : Json),
      yamlParse yamlLoad decodeUtf8 ⟨url, ext, .str s⟩ = .ok v → yamlLoad s = .ok v) := by
  refine ⟨rfl, fun _ _ _ _ _ => rfl, ?_⟩
  intro yamlLoad decodeUtf8 url ext s v h
  simp only [yamlParse, parseStr] at h
  cases hl : yamlLoad s with
  | ok w => rw [hl] at h; cases h; rfl
  | error m => rw [hl] at h; cases h

/-- C5 witness: the textual-input conjunct instantiated at a loader that
recognises the string `"true"`. -/
theorem claim5_witness :
    yamlParse (fun s => if s = "true" then .ok (.bool true) else .error "bad")
        (fun _ => "") ⟨"file:///t.yaml", ".yaml", .str "true"⟩ = .ok (.bool true) ∧
      (fun s => if s = "true" then (.ok (.bool true) : Except String Json) else .error "bad")
          "true" = .ok (.bool true) :=
  ⟨rfl, claim5_yaml_parser_decl.2.2
    (fun s => if s = "true" then .ok (.bool true) else .error "bad")
    (fun _ => "") "file:///t.yaml" ".yaml" "true" (.bool true)
    (by simp [yamlParse, parseStr])⟩

/-- C6: whenever the YAML loader rejects the text (malformed YAML/JSON), the
parser's `parse` fails with a `ParserError` carrying exactly the underlying
parse error message and the URL of the file being parsed — for string input
and for byte input alike; the codomain `Except ParserError Json` records
that no other error kind can be raised. -/
theorem claim6_parser_error
    (yamlLoad : String → Except String Json) (decodeUtf8 : List Nat → String)
    (url ext m : String) :
    (∀ s, yamlLoad s = .error m →
      yamlParse yamlLoad decodeUtf8 ⟨url, ext, .str s⟩ = .error ⟨m, url⟩)
    ∧ (∀ bs, yamlLoad (decodeUtf8 bs) = .error m →
      yamlParse yamlLoad decodeUtf8 ⟨url, ext, .bytes bs⟩ = .error ⟨m, url⟩) := by
  constructor
  · intro s h
    simp [yamlParse, parseStr, h]
  · intro bs h
    simp [yamlParse, parseStr, h]

/-- C6 witness: a loader rejecting everything with message `"bad indent"`
yields a `ParserError` with that message and the file URL. -/
theorem claim6_witness :
    yamlParse (fun _ => .error "bad indent") (fun _ => "")
        ⟨"file:///m.yaml", ".yaml", .str "a: : b"⟩ = .error ⟨"bad indent", "file:///m.yaml"⟩ :=
  (claim6_parser_error (fun _ => .error "bad indent") (fun _ => "")
    "file:///m.yaml" ".yaml" "bad indent").1 "a: : b" rfl

/-- C10: a file whose `data` is neither a `Buffer` nor a string — an
already-parsed JavaScript value — is returned by `parse` unchanged, and no
failure is possible on this branch. -/
theorem claim10_passthrough
    (yamlLoad : String → Except String Json) (decodeUtf8 : List Nat → String)
    (url ext : String) (v : Json) :
    yamlParse yamlLoad decodeUtf8 ⟨url, ext, .value v⟩ = .ok v := rfl

/-- C7: for the two-document cycle of scenario S1 (`a.yaml` referencing
`./b.yaml`, whose `foo` references `./a.yaml#/foo` back), `parse` reports
`circular = false` with no circular refs, while `dereference` reports
`circular = true` with exactly one recorded circular ref, a pointer
containing `#/foo/foo`. -/
theorem claim7_circular_scenario :
    ((parseOp catS1 "a.yaml").2.circular = false ∧
      (parseOp catS1 "a.yaml").2.circularRefs = [])
    ∧ (∃ out p, dereference catS1 "a.yaml" 20 = some (out, ⟨true, [p]⟩) ∧
        ∃ a b, p = a ++ "#/foo/foo" ++ b) := by
  refine ⟨⟨rfl, rfl⟩, ?_⟩
  refine ⟨.obj [("foo", .obj [("foo", .obj [("$ref", .str "./b.yaml")])])],
    "#/foo/foo", rfl, "", "", ?_⟩
  decide

/-- C8: dereferencing a ref node depends only on its target, not on the
position the ref sits at — so two `$ref`s with the same target yield the
same output node, hence the same identity; in particular, for the S3 schema
whose `properties.name` is `{ $ref: "#/definitions/name" }`, the output
sub-trees at `properties.name` and `definitions.name` are the same node,
with identity `#/definitions/name`. -/
theorem claim8_shared_identity :
    (∀ (doc : Json) (fuel : Nat) (p1 p2 : String) (v : Json) (r : String),
      isRefNode v = some r → derefId doc fuel p1 v = derefId doc fuel p2 v)
    ∧ (derefId docS3 20 "#" docS3).bind (fun t => dGet t ["properties", "name"]) =
        (derefId docS3 20 "#" docS3).bind (fun t => dGet t ["definitions", "name"])
    ∧ ((derefId docS3 20 "#" docS3).bind (fun t => dGet t ["properties", "name"])).map
        DTree.ident = some "#/definitions/name"
    ∧ (derefId docS3 20 "#" docS3).isSome = true := by
  refine ⟨?_, rfl, rfl, rfl⟩
  intro doc fuel p1 p2 v r h
  cases fuel with
  | zero => rfl
  | succ fuel' => simp [derefId, h]

/-- C8 witness: the position-independence conjunct instantiated at the S3
document and a concrete ref node placed at two different positions. -/
theorem claim8_witness :
    isRefNode (.obj [("$ref", .str "#/definitions/name")]) = some "#/definitions/name"
    ∧ derefId docS3 5 "#/x" (.obj [("$ref", .str "#/definitions/name")]) =
        derefId docS3 5 "#/y" (.obj [("$ref", .str "#/definitions/name")]) :=
  ⟨rfl, claim8_shared_identity.1 docS3 5 "#/x" "#/y"
    (.obj [("$ref", .str "#/definitions/name")]) "#/definitions/name" rfl⟩

end RefParser
